import Mathlib

/-!
Verification of the wind-turbine power curve evaluator
(source: src/main_project01.py, function wind_turbine_power).

The Python function is pure arithmetic on floats plus one string-validated
mode selector. We embed it shallowly over the rationals: every float
parameter becomes a rational, the string selector stays a string, and the
two Python failure modes that can occur in this function (ValueError from
the mode validation, ZeroDivisionError from float division by zero) become
an explicit error type, so the embedding is a total function into
Except PyError Rat.
-/

/-- The two Python runtime errors that the embedded code can raise. -/
inductive PyError where
  | valueError (msg : String)
  | zeroDivisionError
deriving DecidableEq

instance {ε α : Type} [DecidableEq ε] [DecidableEq α] :
    DecidableEq (Except ε α) := fun a b =>
  match a, b with
  | Except.ok x, Except.ok y =>
    if h : x = y then isTrue (by rw [h]) else isFalse (by simp [h])
  | Except.error e, Except.error f =>
    if h : e = f then isTrue (by rw [h]) else isFalse (by simp [h])
  | Except.ok _, Except.error _ => isFalse (by simp)
  | Except.error _, Except.ok _ => isFalse (by simp)

/-- Python division on floats raises ZeroDivisionError when the divisor is
zero; otherwise it is exact field division in this embedding. -/
def pydiv (a b : ℚ) : Except PyError ℚ :=
  if b = 0 then Except.error PyError.zeroDivisionError else Except.ok (a / b)

/-- The linear fractional-power formula of the ramp region
(source line 52): g = (wind_speed - cut_in) / (rated - cut_in). -/
def g_linear (wind_speed cut_in_wind_speed rated_wind_speed : ℚ) : ℚ :=
  (wind_speed - cut_in_wind_speed) / (rated_wind_speed - cut_in_wind_speed)

/-- The cubic fractional-power formula of the ramp region
(source line 58): g = wind_speed^3 / rated_wind_speed^3. -/
def g_cubic (wind_speed rated_wind_speed : ℚ) : ℚ :=
  wind_speed ^ 3 / rated_wind_speed ^ 3

/-- Shallow embedding of wind_turbine_power (src/main_project01.py, lines
43-61). Structure mirrors the source exactly: first the validation of
interpolation_option against the list of allowed values, then the region
chain. In the ramp region the two interpolation branches are exhaustive
because validation has already ruled out every other string, so the Python
if/elif pair becomes an if/else here. Divisions go through pydiv, which
models the ZeroDivisionError that Python float division raises on a zero
divisor; the returned value g_v * rated_power keeps the operand order of
source line 59. -/
def wind_turbine_power (wind_speed rated_power cut_in_wind_speed
    rated_wind_speed cut_out_wind_speed : ℚ)
    (interpolation_option : String) : Except PyError ℚ :=
  if interpolation_option ∉ ["linear", "cubic"] then
    Except.error (PyError.valueError
      "Invalid interpolation option. Choose 'linear' or 'cubic'.")
  else if wind_speed < cut_in_wind_speed ∨ wind_speed ≥ cut_out_wind_speed then
    Except.ok 0
  else if cut_in_wind_speed ≤ wind_speed ∧ wind_speed < rated_wind_speed then
    (if interpolation_option = "linear" then
      pydiv (wind_speed - cut_in_wind_speed)
        (rated_wind_speed - cut_in_wind_speed)
    else
      pydiv (wind_speed ^ 3) (rated_wind_speed ^ 3)).map
      (fun g_v => g_v * rated_power)
  else
    Except.ok rated_power

/-- The two valid mode strings are distinct; used to resolve the inner
branch of the ramp region. -/
theorem cubic_ne_linear : ("cubic" : String) ≠ "linear" := by decide

/-- Membership fact for the validation list. -/
theorem linear_mem_valid : ("linear" : String) ∈ ["linear", "cubic"] := by
  decide

/-- Membership fact for the validation list. -/
theorem cubic_mem_valid : ("cubic" : String) ∈ ["linear", "cubic"] := by
  decide

/-- A mode equal to one of the two valid strings is a member of the
validation list. -/
theorem mem_of_valid_mode {opt : String}
    (hopt : opt = "linear" ∨ opt = "cubic") : opt ∈ ["linear", "cubic"] := by
  rcases hopt with h | h <;> simp [h]

/-- Evaluation in the zero region (source lines 47-48): any valid mode,
wind speed below cut-in or at/above cut-out. -/
theorem wtp_zero_region (ws rp cin rated cout : ℚ) (opt : String)
    (hopt : opt = "linear" ∨ opt = "cubic")
    (h : ws < cin ∨ ws ≥ cout) :
    wind_turbine_power ws rp cin rated cout opt = Except.ok 0 := by
  unfold wind_turbine_power
  rw [if_neg (not_not_intro (mem_of_valid_mode hopt)), if_pos h]

/-- Evaluation in the ramp region with the linear mode
(source lines 49-52, 59). -/
theorem wtp_ramp_linear (ws rp cin rated cout : ℚ)
    (h1 : cin ≤ ws) (h2 : ws < rated) (h3 : ws < cout) :
    wind_turbine_power ws rp cin rated cout "linear" =
      Except.ok ((ws - cin) / (rated - cin) * rp) := by
  have hd : (0 : ℚ) < rated - cin := sub_pos.mpr (lt_of_le_of_lt h1 h2)
  unfold wind_turbine_power
  rw [if_neg (not_not_intro linear_mem_valid),
    if_neg (by rw [not_or]; exact ⟨not_lt.mpr h1, not_le.mpr h3⟩),
    if_pos ⟨h1, h2⟩, if_pos rfl]
  simp [pydiv, ne_of_gt hd, Except.map]

/-- Evaluation in the ramp region with the cubic mode
(source lines 49, 53-59). The divisor condition is recorded explicitly:
Python would raise ZeroDivisionError when rated_wind_speed ^ 3 = 0. -/
theorem wtp_ramp_cubic (ws rp cin rated cout : ℚ)
    (hr : rated ^ 3 ≠ 0)
    (h1 : cin ≤ ws) (h2 : ws < rated) (h3 : ws < cout) :
    wind_turbine_power ws rp cin rated cout "cubic" =
      Except.ok (ws ^ 3 / rated ^ 3 * rp) := by
  unfold wind_turbine_power
  rw [if_neg (not_not_intro cubic_mem_valid),
    if_neg (by rw [not_or]; exact ⟨not_lt.mpr h1, not_le.mpr h3⟩),
    if_pos ⟨h1, h2⟩, if_neg cubic_ne_linear]
  simp [pydiv, hr, Except.map]

/-- Evaluation in the plateau region (source lines 60-61): any valid mode,
wind speed at/above rated and below cut-out, and not below cut-in. -/
theorem wtp_plateau (ws rp cin rated cout : ℚ) (opt : String)
    (hopt : opt = "linear" ∨ opt = "cubic")
    (h1 : cin ≤ ws) (h2 : rated ≤ ws) (h3 : ws < cout) :
    wind_turbine_power ws rp cin rated cout opt = Except.ok rp := by
  unfold wind_turbine_power
  rw [if_neg (not_not_intro (mem_of_valid_mode hopt)),
    if_neg (by rw [not_or]; exact ⟨not_lt.mpr h1, not_le.mpr h3⟩),
    if_neg (fun hc => absurd hc.2 (not_lt.mpr h2))]

/-- C1: for every choice of the numeric parameters and either valid
interpolation mode, if wind_speed < cut_in_wind_speed or
wind_speed >= cut_out_wind_speed, then the evaluation returns exactly 0. -/
theorem zero_outside_operating_range (ws rp cin rated cout : ℚ)
    (opt : String) (hopt : opt = "linear" ∨ opt = "cubic")
    (h : ws < cin ∨ ws ≥ cout) :
    wind_turbine_power ws rp cin rated cout opt = Except.ok 0 :=
  wtp_zero_region ws rp cin rated cout opt hopt h

/-- Witness for C1 at the sample input wind_speed = 2 with the default
parameters. -/
theorem zero_outside_operating_range_witness :
    ((2 : ℚ) < 3 ∨ (2 : ℚ) ≥ 25) ∧
    wind_turbine_power 2 15 3 11 25 "linear" = Except.ok 0 :=
  ⟨Or.inl (by norm_num),
    zero_outside_operating_range 2 15 3 11 25 "linear" (Or.inl rfl)
      (Or.inl (by norm_num))⟩

/-- C2 counterexample: with cut_in_wind_speed = 20 above
rated_wind_speed = 11, the wind speed 12 satisfies
rated <= 12 < cut_out, yet the first region test 12 < 20 fires and the
function returns 0, not the rated power 15. The claim quantifies over
every choice of the numeric parameters, so this refutes it as stated. -/
theorem plateau_claim_counterexample :
    (11 : ℚ) ≤ 12 ∧ (12 : ℚ) < 25 ∧
    wind_turbine_power 12 15 20 11 25 "linear" ≠ Except.ok 15 := by
  refine ⟨by norm_num, by norm_num, ?_⟩
  norm_num [wind_turbine_power, pydiv, Except.map]

/-- C2 amended: for every choice of the numeric parameters with
cut_in_wind_speed <= wind_speed (in particular under the design invariant
cut_in < rated < cut_out) and either valid mode, if
rated_wind_speed <= wind_speed < cut_out_wind_speed then the evaluation
returns exactly rated_power; the boundary wind_speed = rated_wind_speed is
included, landing in the plateau branch rather than the interpolation
branch. -/
theorem plateau_region_rated_power (ws rp cin rated cout : ℚ)
    (opt : String) (hopt : opt = "linear" ∨ opt = "cubic")
    (h0 : cin ≤ ws) (h1 : rated ≤ ws) (h2 : ws < cout) :
    wind_turbine_power ws rp cin rated cout opt = Except.ok rp :=
  wtp_plateau ws rp cin rated cout opt hopt h0 h1 h2

/-- Witness for the amended C2 at the boundary input
wind_speed = rated_wind_speed = 11 with the default parameters. -/
theorem plateau_region_rated_power_witness :
    (3 : ℚ) ≤ 11 ∧ (11 : ℚ) ≤ 11 ∧ (11 : ℚ) < 25 ∧
    wind_turbine_power 11 15 3 11 25 "linear" = Except.ok 15 :=
  ⟨by norm_num, le_refl 11, by norm_num,
    plateau_region_rated_power 11 15 3 11 25 "linear" (Or.inl rfl)
      (by norm_num) (le_refl 11) (by norm_num)⟩

/-- C3 counterexample: with cut_out_wind_speed = 5 below
rated_wind_speed = 11, the wind speed 7 satisfies cut_in <= 7 < rated,
yet the first region test 7 >= 5 fires and the function returns 0 rather
than the linear interpolation value. The claim quantifies over every
choice of the numeric parameters, so this refutes it as stated. -/
theorem linear_ramp_claim_counterexample :
    (3 : ℚ) ≤ 7 ∧ (7 : ℚ) < 11 ∧
    wind_turbine_power 7 15 3 11 5 "linear" ≠
      Except.ok (15 * ((7 - 3) / (11 - 3))) := by
  refine ⟨by norm_num, by norm_num, ?_⟩
  norm_num [wind_turbine_power, pydiv, Except.map]

/-- C3 amended: for every choice of the numeric parameters with
wind_speed < cut_out_wind_speed (in particular under the design invariant
rated < cut_out) and mode linear, if
cut_in_wind_speed <= wind_speed < rated_wind_speed then the evaluation
returns rated_power * (wind_speed - cut_in) / (rated - cut_in). -/
theorem linear_ramp_formula (ws rp cin rated cout : ℚ)
    (h0 : cin ≤ ws) (h1 : ws < rated) (h2 : ws < cout) :
    wind_turbine_power ws rp cin rated cout "linear" =
      Except.ok (rp * ((ws - cin) / (rated - cin))) := by
  rw [wtp_ramp_linear ws rp cin rated cout h0 h1 h2, mul_comm]

/-- Witness for the amended C3 at wind_speed = 7 with the default
parameters. -/
theorem linear_ramp_formula_witness :
    (3 : ℚ) ≤ 7 ∧ (7 : ℚ) < 11 ∧ (7 : ℚ) < 25 ∧
    wind_turbine_power 7 15 3 11 25 "linear" =
      Except.ok (15 * ((7 - 3) / (11 - 3))) :=
  ⟨by norm_num, by norm_num, by norm_num,
    linear_ramp_formula 7 15 3 11 25 (by norm_num) (by norm_num)
      (by norm_num)⟩

/-- C4 counterexample: with cut_out_wind_speed = 5 below
rated_wind_speed = 11, the wind speed 7 satisfies cut_in <= 7 < rated,
yet the first region test 7 >= 5 fires and the function returns 0 rather
than the cubic value. The claim quantifies over every choice of the
numeric parameters, so this refutes it as stated. -/
theorem cubic_ramp_claim_counterexample :
    (3 : ℚ) ≤ 7 ∧ (7 : ℚ) < 11 ∧
    wind_turbine_power 7 15 3 11 5 "cubic" ≠
      Except.ok (15 * (7 ^ 3 / 11 ^ 3)) := by
  refine ⟨by norm_num, by norm_num, ?_⟩
  norm_num [wind_turbine_power, pydiv, Except.map]

/-- C4 amended: for every choice of the numeric parameters with
0 <= cut_in_wind_speed and wind_speed < cut_out_wind_speed (both hold
under the design reading of the parameters) and mode cubic, if
cut_in_wind_speed <= wind_speed < rated_wind_speed then the evaluation
returns rated_power * wind_speed ^ 3 / rated_wind_speed ^ 3, the
un-normalized cubic form; moreover for a positive wind speed and positive
rated power the result is not zero, so in particular at
wind_speed = cut_in_wind_speed > 0 the value
rated_power * cut_in ^ 3 / rated ^ 3 is nonzero. -/
theorem cubic_ramp_formula (ws rp cin rated cout : ℚ)
    (hcin : 0 ≤ cin) (h0 : cin ≤ ws) (h1 : ws < rated) (h2 : ws < cout) :
    wind_turbine_power ws rp cin rated cout "cubic" =
      Except.ok (rp * (ws ^ 3 / rated ^ 3)) ∧
    (0 < ws → 0 < rp →
      wind_turbine_power ws rp cin rated cout "cubic" ≠ Except.ok 0) := by
  have hrpos : (0 : ℚ) < rated := lt_of_le_of_lt (le_trans hcin h0) h1
  have hr3 : rated ^ 3 ≠ 0 := pow_ne_zero 3 (ne_of_gt hrpos)
  have heq := wtp_ramp_cubic ws rp cin rated cout hr3 h0 h1 h2
  refine ⟨by rw [heq, mul_comm], ?_⟩
  intro hws hrp hzero
  rw [heq] at hzero
  have hval : (0 : ℚ) < ws ^ 3 / rated ^ 3 * rp :=
    mul_pos (div_pos (pow_pos hws 3) (pow_pos hrpos 3)) hrp
  simp only [Except.ok.injEq] at hzero
  exact absurd hzero (ne_of_gt hval)

/-- Witness for the amended C4 at wind_speed = 7 with the default
parameters. -/
theorem cubic_ramp_formula_witness :
    (0 : ℚ) ≤ 3 ∧ (3 : ℚ) ≤ 7 ∧ (7 : ℚ) < 11 ∧ (7 : ℚ) < 25 ∧
    (wind_turbine_power 7 15 3 11 25 "cubic" =
        Except.ok (15 * (7 ^ 3 / 11 ^ 3)) ∧
      ((0 : ℚ) < 7 → (0 : ℚ) < 15 →
        wind_turbine_power 7 15 3 11 25 "cubic" ≠ Except.ok 0)) :=
  ⟨by norm_num, by norm_num, by norm_num, by norm_num,
    cubic_ramp_formula 7 15 3 11 25 (by norm_num) (by norm_num)
      (by norm_num) (by norm_num)⟩

/-- With a valid mode the evaluation never produces a ValueError: every
reachable branch returns a value or, at worst, the ZeroDivisionError from
pydiv. -/
theorem wtp_valid_no_valueError (ws rp cin rated cout : ℚ) (opt : String)
    (hopt : opt = "linear" ∨ opt = "cubic") (msg : String) :
    wind_turbine_power ws rp cin rated cout opt ≠
      Except.error (PyError.valueError msg) := by
  unfold wind_turbine_power
  rw [if_neg (not_not_intro (mem_of_valid_mode hopt))]
  split
  · simp
  · split
    · unfold pydiv
      split <;> split <;> simp [Except.map]
    · simp

/-- C5: the evaluation fails with a ValueError exactly when the mode is
not one of the two valid strings; on an invalid mode the result is that
error itself, with the message of source line 44, uniformly in every
numeric input, so no region logic contributes and nothing replaces or
swallows the error. -/
theorem invalid_mode_error_iff (ws rp cin rated cout : ℚ) (opt : String) :
    ((∃ msg, wind_turbine_power ws rp cin rated cout opt =
        Except.error (PyError.valueError msg)) ↔
      ¬ (opt = "linear" ∨ opt = "cubic")) ∧
    (¬ (opt = "linear" ∨ opt = "cubic") →
      wind_turbine_power ws rp cin rated cout opt =
        Except.error (PyError.valueError
          "Invalid interpolation option. Choose 'linear' or 'cubic'.")) := by
  have herr : ¬ (opt = "linear" ∨ opt = "cubic") →
      wind_turbine_power ws rp cin rated cout opt =
        Except.error (PyError.valueError
          "Invalid interpolation option. Choose 'linear' or 'cubic'.") := by
    intro hv
    unfold wind_turbine_power
    rw [if_pos (by simpa using hv)]
  refine ⟨⟨?_, ?_⟩, herr⟩
  · rintro ⟨msg, hmsg⟩ hv
    exact wtp_valid_no_valueError ws rp cin rated cout opt hv msg hmsg
  · intro hv
    exact ⟨_, herr hv⟩

/-- C6 counterexample: with cut_out_wind_speed = 4 below
rated_wind_speed = 11, the wind speeds 5 and 6 both lie in
[cut_in, rated) but both fall in the cut-out region, so the function
returns 0 at each and is not strictly increasing there, refuting the
claim as stated over every parameter choice with cut_in < rated and
positive rated power. -/
theorem linear_mono_claim_counterexample :
    (3 : ℚ) < 11 ∧ (0 : ℚ) < 15 ∧ (3 : ℚ) ≤ 5 ∧ (5 : ℚ) < 6 ∧
    (6 : ℚ) < 11 ∧
    wind_turbine_power 5 15 3 11 4 "linear" = Except.ok 0 ∧
    wind_turbine_power 6 15 3 11 4 "linear" = Except.ok 0 := by
  refine ⟨by norm_num, by norm_num, by norm_num, by norm_num, by norm_num,
    ?_, ?_⟩ <;>
    norm_num [wind_turbine_power, pydiv, Except.map]

/-- C6 amended: in linear mode, for parameters with
cut_in_wind_speed < rated_wind_speed, rated_power > 0, and additionally
rated_wind_speed <= cut_out_wind_speed (so the ramp region is not eaten
by the cut-out test), the result is strictly increasing on
[cut_in, rated), and the interpolation formula evaluated at
wind_speed = rated_wind_speed yields exactly rated_power. -/
theorem linear_strictly_increasing (rp cin rated cout : ℚ)
    (hlt : cin < rated) (hrp : 0 < rp) (hco : rated ≤ cout) :
    (∀ v1 v2 : ℚ, cin ≤ v1 → v1 < v2 → v2 < rated →
      ∃ q1 q2 : ℚ,
        wind_turbine_power v1 rp cin rated cout "linear" = Except.ok q1 ∧
        wind_turbine_power v2 rp cin rated cout "linear" = Except.ok q2 ∧
        q1 < q2) ∧
    g_linear rated cin rated * rp = rp := by
  constructor
  · intro v1 v2 h1 h12 h2r
    have hv1r : v1 < rated := lt_trans h12 h2r
    have hv1co : v1 < cout := lt_of_lt_of_le hv1r hco
    have hv2co : v2 < cout := lt_of_lt_of_le h2r hco
    have hv2 : cin ≤ v2 := le_of_lt (lt_of_le_of_lt h1 h12)
    have hd : (0 : ℚ) < rated - cin := sub_pos.mpr hlt
    refine ⟨_, _, wtp_ramp_linear v1 rp cin rated cout h1 hv1r hv1co,
      wtp_ramp_linear v2 rp cin rated cout hv2 h2r hv2co, ?_⟩
    exact mul_lt_mul_of_pos_right
      ((div_lt_div_iff_of_pos_right hd).mpr (by linarith)) hrp
  · unfold g_linear
    rw [div_self (ne_of_gt (sub_pos.mpr hlt)), one_mul]

/-- Witness for the amended C6 at the default parameters with the pair
v1 = 5 and v2 = 7. -/
theorem linear_strictly_increasing_witness :
    (3 : ℚ) < 11 ∧ (0 : ℚ) < 15 ∧ (11 : ℚ) ≤ 25 ∧ (3 : ℚ) ≤ 5 ∧
    (5 : ℚ) < 7 ∧ (7 : ℚ) < 11 ∧
    ∃ q1 q2 : ℚ,
      wind_turbine_power 5 15 3 11 25 "linear" = Except.ok q1 ∧
      wind_turbine_power 7 15 3 11 25 "linear" = Except.ok q2 ∧ q1 < q2 :=
  ⟨by norm_num, by norm_num, by norm_num, by norm_num, by norm_num,
    by norm_num,
    (linear_strictly_increasing 15 3 11 25 (by norm_num) (by norm_num)
      (by norm_num)).1 5 7 (by norm_num) (by norm_num) (by norm_num)⟩

/-- C7 counterexample: at the default parameters, which satisfy every
hypothesis of the claim, the cubic ramp formula evaluated at
wind_speed = rated_wind_speed = 11 equals the plateau value 15 exactly,
so the claimed disagreement at the region-2/region-3 boundary is false. -/
theorem cubic_boundary_claim_counterexample :
    (0 : ℚ) < 3 ∧ (3 : ℚ) < 11 ∧ (0 : ℚ) < 15 ∧
    g_cubic 11 11 * 15 = (15 : ℚ) := by
  norm_num [g_cubic]

/-- C7 amended: in cubic mode, for parameters with
0 < cut_in_wind_speed < rated_wind_speed and rated_power > 0, for every
epsilon with 0 < epsilon <= rated - cut_in, the result at
wind_speed = rated - epsilon differs from rated_power; however the ramp
formula evaluated at wind_speed = rated_wind_speed agrees with the
plateau value rated_power exactly, so there is no discontinuity at the
region-2/region-3 boundary (the jump of the cubic curve is at cut-in
instead). -/
theorem cubic_no_boundary_jump (rp cin rated cout : ℚ)
    (hcin : 0 < cin) (hlt : cin < rated) (hrp : 0 < rp) :
    (∀ ε : ℚ, 0 < ε → ε ≤ rated - cin →
      wind_turbine_power (rated - ε) rp cin rated cout "cubic" ≠
        Except.ok rp) ∧
    g_cubic rated rated * rp = rp := by
  have hrpos : (0 : ℚ) < rated := lt_trans hcin hlt
  have hr3 : rated ^ 3 ≠ 0 := pow_ne_zero 3 (ne_of_gt hrpos)
  constructor
  · intro ε hε hεle heq
    have h1 : cin ≤ rated - ε := by linarith
    have h2 : rated - ε < rated := by linarith
    by_cases hco : rated - ε ≥ cout
    · have h0 := wtp_zero_region (rated - ε) rp cin rated cout "cubic"
        (Or.inr rfl) (Or.inr hco)
      rw [h0] at heq
      simp only [Except.ok.injEq] at heq
      exact absurd heq.symm (ne_of_gt hrp)
    · have hco2 : rated - ε < cout := not_le.mp hco
      have hws : (0 : ℚ) < rated - ε := lt_of_lt_of_le hcin h1
      have h3 := wtp_ramp_cubic (rated - ε) rp cin rated cout hr3 h1 h2 hco2
      rw [h3] at heq
      simp only [Except.ok.injEq] at heq
      have hlt3 : (rated - ε) ^ 3 < rated ^ 3 :=
        pow_lt_pow_left₀ h2 (le_of_lt hws) (by norm_num)
      have hg1 : (rated - ε) ^ 3 / rated ^ 3 < 1 :=
        (div_lt_one (pow_pos hrpos 3)).mpr hlt3
      have hcon : (rated - ε) ^ 3 / rated ^ 3 * rp < rp := by
        calc (rated - ε) ^ 3 / rated ^ 3 * rp < 1 * rp :=
              mul_lt_mul_of_pos_right hg1 hrp
          _ = rp := one_mul rp
      exact absurd heq (ne_of_lt hcon)
  · unfold g_cubic
    rw [div_self hr3, one_mul]

/-- Witness for the amended C7 at the default parameters with
epsilon = 1. -/
theorem cubic_no_boundary_jump_witness :
    (0 : ℚ) < 3 ∧ (3 : ℚ) < 11 ∧ (0 : ℚ) < 15 ∧ (0 : ℚ) < 1 ∧
    (1 : ℚ) ≤ 11 - 3 ∧
    wind_turbine_power (11 - 1) 15 3 11 25 "cubic" ≠ Except.ok 15 ∧
    g_cubic 11 11 * 15 = 15 :=
  ⟨by norm_num, by norm_num, by norm_num, by norm_num, by norm_num,
    (cubic_no_boundary_jump 15 3 11 25 (by norm_num) (by norm_num)
      (by norm_num)).1 1 (by norm_num) (by norm_num),
    (cubic_no_boundary_jump 15 3 11 25 (by norm_num) (by norm_num)
      (by norm_num)).2⟩

/-- C8: the five concrete scenarios at the default parameters
rated_power = 15, cut_in = 3, rated = 11, cut_out = 25: linear at 7 gives
15/2 = 7.5, cubic at 7 gives 15 * 343/1331, linear at 2 gives 0, linear
at 11 gives 15, linear at 26 gives 0. -/
theorem default_parameter_examples :
    wind_turbine_power 7 15 3 11 25 "linear" = Except.ok (15 / 2) ∧
    wind_turbine_power 7 15 3 11 25 "cubic" =
      Except.ok (15 * (343 / 1331)) ∧
    wind_turbine_power 2 15 3 11 25 "linear" = Except.ok 0 ∧
    wind_turbine_power 11 15 3 11 25 "linear" = Except.ok 15 ∧
    wind_turbine_power 26 15 3 11 25 "linear" = Except.ok 0 := by
  refine ⟨?_, ?_, ?_, ?_, ?_⟩ <;>
    norm_num [wind_turbine_power, pydiv, Except.map, cubic_ne_linear]

/-- C9 counterexample: in cubic mode with rated_wind_speed = 0,
cut_in_wind_speed = -5 and wind_speed = -3 the ramp region is reached
and the cubic branch divides by 0 ^ 3 = 0, so evaluation is not total:
Python raises ZeroDivisionError. The cubic branch thus contains a second
division that the claim overlooks. -/
theorem division_by_zero_counterexample :
    ("cubic" = "linear" ∨ "cubic" = "cubic") ∧
    wind_turbine_power (-3) 15 (-5) 0 10 "cubic" =
      Except.error PyError.zeroDivisionError := by
  refine ⟨Or.inr rfl, ?_⟩
  norm_num [wind_turbine_power, pydiv, Except.map, cubic_ne_linear]

/-- C9 amended: evaluation with a valid mode is total and never divides
by zero provided that in cubic mode rated_wind_speed is nonzero; the only
division of the linear branch, by rated - cut_in, is reached only under
cut_in <= wind_speed < rated_wind_speed, which forces that divisor to be
strictly positive. -/
theorem total_no_div_zero (ws rp cin rated cout : ℚ) (opt : String)
    (hopt : opt = "linear" ∨ opt = "cubic")
    (hcubic : opt = "cubic" → rated ≠ 0) :
    (∃ q : ℚ, wind_turbine_power ws rp cin rated cout opt = Except.ok q) ∧
    (cin ≤ ws → ws < rated → 0 < rated - cin) := by
  refine ⟨?_, fun hle hlt => sub_pos.mpr (lt_of_le_of_lt hle hlt)⟩
  by_cases hz : ws < cin ∨ ws ≥ cout
  · exact ⟨0, wtp_zero_region ws rp cin rated cout opt hopt hz⟩
  · push_neg at hz
    obtain ⟨hge, hltout⟩ := hz
    by_cases hr : ws < rated
    · rcases hopt with rfl | rfl
      · exact ⟨_, wtp_ramp_linear ws rp cin rated cout hge hr hltout⟩
      · have hr3 : rated ^ 3 ≠ 0 := pow_ne_zero 3 (hcubic rfl)
        exact ⟨_, wtp_ramp_cubic ws rp cin rated cout hr3 hge hr hltout⟩
    · exact ⟨rp, wtp_plateau ws rp cin rated cout opt hopt hge
        (not_lt.mp hr) hltout⟩

/-- Witness for the amended C9 at the default parameters in linear mode
with wind_speed = 7. -/
theorem total_no_div_zero_witness :
    ("linear" = "linear" ∨ "linear" = "cubic") ∧
    (("linear" = "cubic") → (11 : ℚ) ≠ 0) ∧
    ((∃ q : ℚ, wind_turbine_power 7 15 3 11 25 "linear" = Except.ok q) ∧
      ((3 : ℚ) ≤ 7 → (7 : ℚ) < 11 → (0 : ℚ) < 11 - 3)) :=
  ⟨Or.inl rfl, fun h => absurd h (by decide),
    total_no_div_zero 7 15 3 11 25 "linear" (Or.inl rfl)
      (fun h => absurd h (by decide))⟩

/-- C10: with a valid mode, rated_power > 0 and
0 <= cut_in_wind_speed < rated_wind_speed, the result exists for every
wind_speed and lies in the closed interval [0, rated_power]. -/
theorem result_in_range (ws rp cin rated cout : ℚ) (opt : String)
    (hopt : opt = "linear" ∨ opt = "cubic")
    (hrp : 0 < rp) (h0 : 0 ≤ cin) (hlt : cin < rated) :
    ∃ q : ℚ, wind_turbine_power ws rp cin rated cout opt = Except.ok q ∧
      0 ≤ q ∧ q ≤ rp := by
  by_cases hz : ws < cin ∨ ws ≥ cout
  · exact ⟨0, wtp_zero_region ws rp cin rated cout opt hopt hz,
      le_refl 0, le_of_lt hrp⟩
  · push_neg at hz
    obtain ⟨hge, hltout⟩ := hz
    by_cases hr : ws < rated
    · have hd : (0 : ℚ) < rated - cin := sub_pos.mpr hlt
      rcases hopt with rfl | rfl
      · refine ⟨_, wtp_ramp_linear ws rp cin rated cout hge hr hltout,
          ?_, ?_⟩
        · exact mul_nonneg
            (div_nonneg (sub_nonneg.mpr hge) (le_of_lt hd)) (le_of_lt hrp)
        · have hg1 : (ws - cin) / (rated - cin) ≤ 1 :=
            (div_le_one hd).mpr (by linarith)
          exact mul_le_of_le_one_left (le_of_lt hrp) hg1
      · have hrpos : (0 : ℚ) < rated := lt_of_le_of_lt h0 hlt
        have hws0 : (0 : ℚ) ≤ ws := le_trans h0 hge
        refine ⟨_, wtp_ramp_cubic ws rp cin rated cout
          (pow_ne_zero 3 (ne_of_gt hrpos)) hge hr hltout, ?_, ?_⟩
        · exact mul_nonneg
            (div_nonneg (pow_nonneg hws0 3) (le_of_lt (pow_pos hrpos 3)))
            (le_of_lt hrp)
        · have hg1 : ws ^ 3 / rated ^ 3 ≤ 1 :=
            (div_le_one (pow_pos hrpos 3)).mpr
              (pow_le_pow_left₀ hws0 (le_of_lt hr) 3)
          exact mul_le_of_le_one_left (le_of_lt hrp) hg1
    · exact ⟨rp, wtp_plateau ws rp cin rated cout opt hopt hge
        (not_lt.mp hr) hltout, le_of_lt hrp, le_refl rp⟩

/-- Witness for C10 at the default parameters in linear mode with
wind_speed = 7. -/
theorem result_in_range_witness :
    (("linear" = "linear" ∨ "linear" = "cubic") ∧ (0 : ℚ) < 15 ∧
      (0 : ℚ) ≤ 3 ∧ (3 : ℚ) < 11) ∧
    ∃ q : ℚ, wind_turbine_power 7 15 3 11 25 "linear" = Except.ok q ∧
      0 ≤ q ∧ q ≤ 15 :=
  ⟨⟨Or.inl rfl, by norm_num, by norm_num, by norm_num⟩,
    result_in_range 7 15 3 11 25 "linear" (Or.inl rfl) (by norm_num)
      (by norm_num) (by norm_num)⟩
